import Mathlib

/-!
Verification of the maisquelle MySQL monitoring agent's health-evaluation,
report-handling and advisory components against their specification.

The Python sources are embedded shallowly:
* dictionary snapshots (`SHOW GLOBAL STATUS` / `SHOW GLOBAL VARIABLES` rows)
  become association lists from `String` keys to `String` values;
* Python `float`/`int` arithmetic is modelled over `ℚ`/`ℤ` (the inputs the
  claims exercise are small integers, exactly representable as floats);
* a Python function that can raise (and whose caller turns the exception into
  `None`) is modelled as an `Option`-returning function, `none` standing for
  the aborted run.
-/

/-- Numeric value of a decimal digit character, `none` otherwise. -/
def digitVal (c : Char) : Option Nat :=
  if c.isDigit then some (c.toNat - 48) else none

/-- Value of a non-empty all-digit character list, `none` otherwise. -/
def decDigits : List Char → Option Nat
  | [] => none
  | cs =>
    cs.foldl
      (fun acc c =>
        match acc, digitVal c with
        | some a, some d => some (a * 10 + d)
        | _, _ => none)
      (some 0)

/-- Value of a possibly-empty all-digit character list (empty ↦ 0),
`none` when a non-digit occurs.  Used for the two sides of a decimal point,
where Python's `float` accepts `"1."` and `".5"`. -/
def decDigits0 : List Char → Option Nat
  | cs =>
    cs.foldl
      (fun acc c =>
        match acc, digitVal c with
        | some a, some d => some (a * 10 + d)
        | _, _ => none)
      (some 0)

/-- Leading- and trailing-whitespace strip on a character list, the model
of Python's whitespace tolerance in `int(s)` / `float(s)`. -/
def stripWs (cs : List Char) : List Char :=
  ((cs.dropWhile (fun c => c = ' ')).reverse.dropWhile (fun c => c = ' ')).reverse

/-- Embedding of Python `int(s)` on a string: strip whitespace, optional
sign, non-empty digit run; `none` models `ValueError`. -/
def pyIntOfString (s : String) : Option Int :=
  match stripWs s.toList with
  | '-' :: rest => (decDigits rest).map (fun n => -(n : Int))
  | '+' :: rest => (decDigits rest).map Int.ofNat
  | cs => (decDigits cs).map Int.ofNat

/-- Embedding of Python `float(s)` on a string (the decimal forms the
monitor's counters take): strip whitespace, optional sign, digits with an
optional decimal point; `none` models `ValueError`. -/
def pyFloatOfString (s : String) : Option ℚ :=
  let core : List Char → Option ℚ := fun cs =>
    match cs.span (fun c => c.isDigit) with
    | (ip, []) => (decDigits ip).map (fun n => (n : ℚ))
    | (ip, '.' :: fp) =>
      if fp.all (fun c => c.isDigit) && !(ip.isEmpty && fp.isEmpty) then
        match decDigits0 ip, decDigits0 fp with
        | some i, some f => some ((i : ℚ) + (f : ℚ) / ((10 : ℚ) ^ fp.length))
        | _, _ => none
      else none
    | _ => none
  match stripWs s.toList with
  | '-' :: rest => (core rest).map (fun q => -q)
  | '+' :: rest => core rest
  | cs => core cs

/-- First-match association-list lookup, the model of a Python dict access
(dict keys are unique in the snapshots the monitor builds). -/
def alookup (k : String) : List (String × String) → Option String
  | [] => none
  | (k', v) :: rest => if k' = k then some v else alookup k rest

/-- `float(d.get(k, default))`: the default is used only when the key is
absent; a present value is parsed and a parse failure (`ValueError`)
propagates as `none`. -/
def getFloatD (m : List (String × String)) (k : String) (d : ℚ) : Option ℚ :=
  match alookup k m with
  | some s => pyFloatOfString s
  | none => some d

/-- `int(d.get(k, default))`, same default-only-on-absence semantics. -/
def getIntD (m : List (String × String)) (k : String) (d : Int) : Option Int :=
  match alookup k m with
  | some s => pyIntOfString s
  | none => some d

/-- Result of `QueryAnalyzer.analyze_query_cache`'s metric and rule phase:
the three derived ratios and the warning / recommendation lists the report
embeds. -/
structure CacheAnalysis where
  hit_ratio : ℚ
  memory_usage_ratio : ℚ
  fragmentation_ratio : ℚ
  warnings : List String
  recommendations : List String
deriving Repr, DecidableEq

/-- Warning text of the hit-ratio rule. -/
def msgLowHit : String := "Low Query Cache hit ratio (<30%)"

/-- Recommendation text of the hit-ratio rule under heavy traffic. -/
def msgTraffic : String :=
  "Consider increasing query_cache_size as there's significant query traffic"

/-- Informational recommendation of the hit-ratio rule above 80%. -/
def msgGoodHit : String := "Query Cache hit ratio is good (>80%)"

/-- Warning text of the high-memory-usage band. -/
def msgHighMem : String := "Query Cache memory usage is very high (>95%)"

/-- Recommendation text of the high-memory-usage band. -/
def msgIncSize : String := "Consider increasing query_cache_size"

/-- Warning text of the low-memory-usage band. -/
def msgLowMem : String := "Query Cache memory usage is very low (<20%)"

/-- Recommendation text of the low-memory-usage band. -/
def msgDecSize : String := "Consider decreasing query_cache_size to free up memory"

/-- Warning text of the fragmentation rule. -/
def msgFrag : String := "High Query Cache fragmentation (>20%)"

/-- Recommendation text of the fragmentation rule. -/
def msgFlush : String := "Consider running FLUSH QUERY CACHE"

/-- Warning text of the low-memory-eviction rule. -/
def msgPrune : String := "High number of queries removed due to low memory"

/-- Recommendation text of the low-memory-eviction rule. -/
def msgPruneRec : String := "Consider increasing query_cache_size or reducing query_cache_limit"

/-- Warning emitted when the query cache reports itself disabled. -/
def msgDisabled : String := "Query Cache is currently disabled"

/-- The rule phase of `analyze_query_cache` (source lines 84–109), run once
the ratios are computed and the cache is not `OFF`.  The appends happen in
the source's textual order: hit-ratio rule, then memory-usage rule, then
fragmentation rule, then low-memory-eviction rule. -/
def cacheRules (hit_ratio memory_usage_ratio fragmentation_ratio queries : ℚ)
    (prunes inserts : Int) : List String × List String :=
  let wHit := if hit_ratio < 30 then [msgLowHit] else []
  let rHit :=
    if hit_ratio < 30 then
      if queries > 10000 then [msgTraffic] else []
    else if hit_ratio > 80 then [msgGoodHit] else []
  let wMem :=
    if memory_usage_ratio > 95 then [msgHighMem]
    else if memory_usage_ratio < 20 then [msgLowMem]
    else []
  let rMem :=
    if memory_usage_ratio > 95 then [msgIncSize]
    else if memory_usage_ratio < 20 then [msgDecSize]
    else []
  let wFrag := if fragmentation_ratio > 20 then [msgFrag] else []
  let rFrag := if fragmentation_ratio > 20 then [msgFlush] else []
  let lowmem := (prunes : ℚ) > (inserts : ℚ) / 3
  let wLow := if lowmem then [msgPrune] else []
  let rLow := if lowmem then [msgPruneRec] else []
  (wHit ++ wMem ++ wFrag ++ wLow, rHit ++ rMem ++ rFrag ++ rLow)

/-- Embedding of `QueryAnalyzer.analyze_query_cache` from the collected
`cache_config` (`SHOW GLOBAL VARIABLES LIKE 'query_cache%'`) and
`cache_status` (`SHOW GLOBAL STATUS LIKE 'Qcache%'`) snapshots onward.
`none` models the function returning `None` after a caught exception
(`ValueError` from `float`/`int`, or `ZeroDivisionError` when a present
denominator is zero). -/
def analyze_query_cache (cache_config cache_status : List (String × String)) :
    Option CacheAnalysis := do
  let hits ← getFloatD cache_status "Qcache_hits" 0
  let inserts ← getFloatD cache_status "Qcache_inserts" 0
  let queries := hits + inserts
  let hit_ratio := if queries > 0 then hits / queries * 100 else 0
  let total_blocks ← getFloatD cache_status "Qcache_total_blocks" 1
  let free_blocks ← getFloatD cache_status "Qcache_free_blocks" 0
  let fragmentation_ratio ←
    if total_blocks = 0 then none else some (free_blocks / total_blocks * 100)
  let memory_usage ← getFloatD cache_status "Qcache_free_memory" 0
  let total_memory ← getFloatD cache_config "query_cache_size" 1
  let memory_usage_ratio ←
    if total_memory = 0 then none
    else some ((total_memory - memory_usage) / total_memory * 100)
  if alookup "query_cache_type" cache_config = some "OFF" then
    return ⟨hit_ratio, memory_usage_ratio, fragmentation_ratio, [msgDisabled], []⟩
  else
    let prunesI ← getIntD cache_status "Qcache_lowmem_prunes" 0
    let insertsI ← getIntD cache_status "Qcache_inserts" 0
    let wr := cacheRules hit_ratio memory_usage_ratio fragmentation_ratio queries prunesI insertsI
    return ⟨hit_ratio, memory_usage_ratio, fragmentation_ratio, wr.1, wr.2⟩

/-- A row of `information_schema.tables` as `TableStatistics.get_table_statistics`
selects it (the fields `analyze_table_health` reads; sizes are byte counts). -/
structure TableStat where
  Database : String
  Table : String
  Data_Size : Int
  Index_Size : Int
  Free_Space : Int
deriving Repr, DecidableEq

/-- `Database.Table`, the qualified name the warnings interpolate. -/
def tableName (t : TableStat) : String := t.Database ++ "." ++ t.Table

/-- Warning text of the no-index check. -/
def msgNoIdx (t : TableStat) : String := "Table " ++ tableName t ++ " has no indexes"

/-- Recommendation text of the no-index check. -/
def msgAddIdx (t : TableStat) : String :=
  "Consider adding appropriate indexes to " ++ tableName t

/-- Warning text of the large-table check. -/
def msgBigTable (t : TableStat) : String := "Table " ++ tableName t ++ " is larger than 1GB"

/-- Recommendation text of the large-table check. -/
def msgPartition (t : TableStat) : String := "Consider partitioning " ++ tableName t

/-- Warning text of the free-space check. -/
def msgFreeSpace (t : TableStat) : String :=
  "Table " ++ tableName t ++ " has significant free space"

/-- Recommendation text of the free-space check. -/
def msgOptimize (t : TableStat) : String :=
  "Consider running OPTIMIZE TABLE on " ++ tableName t

/-- The loop body of `TableStatistics.analyze_table_health` (source lines
131–155): the three independent per-table checks, in source order.  Python's
float literal `0.2` is modelled by the rational `2/10` (the counters the
checks compare are exact small integers). -/
def tableChecks (t : TableStat) : List String × List String :=
  let wIdx := if t.Index_Size = 0 then [msgNoIdx t] else []
  let rIdx := if t.Index_Size = 0 then [msgAddIdx t] else []
  let wBig := if t.Data_Size > 1073741824 then [msgBigTable t] else []
  let rBig := if t.Data_Size > 1073741824 then [msgPartition t] else []
  let frag := (t.Free_Space : ℚ) > (t.Data_Size : ℚ) * (2 / 10)
  let wFree := if frag then [msgFreeSpace t] else []
  let rFree := if frag then [msgOptimize t] else []
  (wIdx ++ wBig ++ wFree, rIdx ++ rBig ++ rFree)

/-- Embedding of `TableStatistics.analyze_table_health`.  `none` models a
`stats` argument that is falsy or lacks the `table_stats` key. -/
def analyze_table_health (stats : Option (List TableStat)) : List String × List String :=
  match stats with
  | Option.none => (["No table statistics available"], [])
  | some tables =>
    tables.foldl (fun acc t =>
      let wr := tableChecks t
      (acc.1 ++ wr.1, acc.2 ++ wr.2)) ([], [])

/-- A Python runtime value as `ReportHandler` receives it: primitives,
datetimes (carrying their `isoformat()` string), byte strings, sequences,
string-keyed mappings, namedtuples (`_asdict`), plain objects (`__dict__`),
and any other object carrying only its `str()` form (`exotic`). -/
inductive PyVal where
  | none
  | bool (b : Bool)
  | int (n : Int)
  | float (q : ℚ)
  | str (s : String)
  | bytes (bs : List Nat)
  | datetime (iso : String)
  | list (xs : List PyVal)
  | tuple (xs : List PyVal)
  | dict (kvs : List (String × PyVal))
  | namedtuple (fields : List (String × PyVal))
  | obj (fields : List (String × PyVal))
  | exotic (s : String)
deriving Repr

/-- Is `b` a UTF-8 continuation byte? -/
def utf8Cont (b : Nat) : Bool := 128 ≤ b && b < 192

/-- Strict UTF-8 decoding of a byte list into code points (`none` models
`UnicodeDecodeError` from Python's `bytes.decode('utf-8')`): rejects stray
continuation bytes, overlong forms, surrogates and values above U+10FFFF. -/
def utf8Decode : List Nat → Option (List Nat)
  | [] => some []
  | b :: bs =>
    if b < 128 then (utf8Decode bs).map (fun cs => b :: cs)
    else if b < 194 then Option.none
    else if b < 224 then
      match bs with
      | b2 :: bs2 =>
        if utf8Cont b2 then
          (utf8Decode bs2).map (fun cs => ((b - 192) * 64 + (b2 - 128)) :: cs)
        else Option.none
      | [] => Option.none
    else if b < 240 then
      match bs with
      | b2 :: b3 :: bs3 =>
        if utf8Cont b2 && utf8Cont b3 then
          let cp := (b - 224) * 4096 + (b2 - 128) * 64 + (b3 - 128)
          if cp < 2048 || (55296 ≤ cp && cp < 57344) then Option.none
          else (utf8Decode bs3).map (fun cs => cp :: cs)
        else Option.none
      | _ => Option.none
    else if b < 245 then
      match bs with
      | b2 :: b3 :: b4 :: bs4 =>
        if utf8Cont b2 && utf8Cont b3 && utf8Cont b4 then
          let cp := (b - 240) * 262144 + (b2 - 128) * 4096 + (b3 - 128) * 64 + (b4 - 128)
          if cp < 65536 || 1114111 < cp then Option.none
          else (utf8Decode bs4).map (fun cs => cp :: cs)
        else Option.none
      | _ => Option.none
    else Option.none

/-- Python `bs.decode('utf-8')`. -/
def bytesDecodeUtf8 (bs : List Nat) : Option String :=
  (utf8Decode bs).map (fun cps => String.mk (cps.map Char.ofNat))

mutual

/-- Embedding of `ReportHandler._convert_to_serializable`, branch for branch
in source order (lines 16–33).  The `_asdict` and `__dict__` branches return
`dict(...)` of the field map as-is — the field values are NOT recursively
converted, exactly as in the source.  `none` models an uncaught
`UnicodeDecodeError` from the `bytes` branch. -/
def convert_to_serializable : PyVal → Option PyVal
  | .namedtuple fields => some (.dict fields)
  | .obj fields => some (.dict fields)
  | .datetime iso => some (.str iso)
  | .bytes bs => (bytesDecodeUtf8 bs).map .str
  | .none => some .none
  | .bool b => some (.bool b)
  | .int n => some (.int n)
  | .float q => some (.float q)
  | .str s => some (.str s)
  | .list xs => (convertList xs).map .list
  | .tuple xs => (convertList xs).map .list
  | .dict kvs => (convertKvs kvs).map .dict
  | .exotic s => some (.str s)

/-- Elementwise conversion of a sequence (the list comprehension at line 29). -/
def convertList : List PyVal → Option (List PyVal)
  | [] => some []
  | x :: xs => do
    let y ← convert_to_serializable x
    let ys ← convertList xs
    return y :: ys

/-- Valuewise conversion of a mapping (the dict comprehension at line 31;
keys are strings already, so `str(k)` is the identity in the model). -/
def convertKvs : List (String × PyVal) → Option (List (String × PyVal))
  | [] => some []
  | (k, v) :: kvs => do
    let w ← convert_to_serializable v
    let ws ← convertKvs kvs
    return (k, w) :: ws

end

mutual

/-- Does a converted value consist only of JSON-encodable primitives,
lists and string-keyed mappings? -/
def isPrimitiveOnly : PyVal → Bool
  | .none | .bool _ | .int _ | .float _ | .str _ => true
  | .list xs => isPrimitiveOnlyList xs
  | .dict kvs => isPrimitiveOnlyKvs kvs
  | _ => false

/-- All elements primitive-only. -/
def isPrimitiveOnlyList : List PyVal → Bool
  | [] => true
  | x :: xs => isPrimitiveOnly x && isPrimitiveOnlyList xs

/-- All mapping values primitive-only. -/
def isPrimitiveOnlyKvs : List (String × PyVal) → Bool
  | [] => true
  | (_, v) :: kvs => isPrimitiveOnly v && isPrimitiveOnlyKvs kvs

end

/-- JSON string escaping (quote and backslash; enough for the monitor's
messages, which contain neither control characters nor non-ASCII text). -/
def jsonEscape (s : String) : String :=
  String.mk (s.toList.foldr
    (fun c acc =>
      if c = '"' then '\\' :: '"' :: acc
      else if c = '\\' then '\\' :: '\\' :: acc
      else c :: acc) [])

/-- Decimal rendering of the model's rational stand-in for a Python float. -/
def ratRepr (q : ℚ) : String :=
  toString q.num ++ (if q.den = 1 then "" else "/" ++ toString q.den)

mutual

/-- Streaming model of `json.dump(value, f)`: the pair is (text written to
the file before returning or raising, did encoding complete).  A value the
encoder cannot serialize (datetime, bytes, records, opaque objects) raises
`TypeError` after everything before it has already been written — exactly
the incremental `iterencode` behaviour `json.dump` uses.  Indentation under
`indent=2` is presentational and not modelled. -/
def jsonDump : PyVal → String × Bool
  | .none => ("null", true)
  | .bool b => (if b then "true" else "false", true)
  | .int n => (toString n, true)
  | .float q => (ratRepr q, true)
  | .str s => ("\"" ++ jsonEscape s ++ "\"", true)
  | .list xs =>
    let r := jsonDumpElems xs
    ("[" ++ r.1 ++ (if r.2 then "]" else ""), r.2)
  | .tuple xs =>
    let r := jsonDumpElems xs
    ("[" ++ r.1 ++ (if r.2 then "]" else ""), r.2)
  | .dict kvs =>
    let r := jsonDumpKvs kvs
    ("\x7b" ++ r.1 ++ (if r.2 then "\x7d" else ""), r.2)
  | .bytes _ => ("", false)
  | .datetime _ => ("", false)
  | .namedtuple _ => ("", false)
  | .obj _ => ("", false)
  | .exotic _ => ("", false)

/-- Comma-separated streaming of array elements. -/
def jsonDumpElems : List PyVal → String × Bool
  | [] => ("", true)
  | [x] => jsonDump x
  | x :: y :: xs =>
    let r := jsonDump x
    if r.2 then
      let rest := jsonDumpElems (y :: xs)
      (r.1 ++ ", " ++ rest.1, rest.2)
    else r

/-- Comma-separated streaming of object members. -/
def jsonDumpKvs : List (String × PyVal) → String × Bool
  | [] => ("", true)
  | [(k, v)] =>
    let r := jsonDump v
    ("\"" ++ jsonEscape k ++ "\": " ++ r.1, r.2)
  | (k, v) :: kv :: kvs =>
    let r := jsonDump v
    if r.2 then
      let rest := jsonDumpKvs (kv :: kvs)
      ("\"" ++ jsonEscape k ++ "\": " ++ r.1 ++ ", " ++ rest.1, rest.2)
    else ("\"" ++ jsonEscape k ++ "\": " ++ r.1, false)

end

/-- Embedding of `ReportHandler.prepare_report_data` for a run whose
`datetime.now().isoformat()` is `tsIso`: the metadata wrapper around the
converted payload.  `none` models the conversion raising. -/
def prepare_report_data (tsIso : String) (data : PyVal) : Option PyVal :=
  (convert_to_serializable data).map (fun d =>
    .dict [("metadata", .dict [("timestamp", .str tsIso), ("report_version", .str "1.0")]),
           ("data", d)])

/-- Outcome of one `ReportHandler.save_report` call: the content the opened
file holds afterwards (`none` when the file was never opened), and the
returned path (`none` when an exception propagated to the caller). -/
structure SinkOutcome where
  fileContent : Option String
  ret : Option String
deriving Repr, DecidableEq

/-- Embedding of `ReportHandler.save_report` for a run whose timestamp
strings are `ts` (filename form) and `tsIso` (metadata form).
`prepare_report_data` runs before the file is opened; `open(filepath, 'w')`
creates the file; `json.dump` then streams into it, so an encoding error
leaves the prefix written so far on disk. -/
def save_report (output_dir ts tsIso : String) (report_data : PyVal)
    (report_type : String) : SinkOutcome :=
  match prepare_report_data tsIso report_data with
  | Option.none => ⟨Option.none, Option.none⟩
  | some structured =>
    let filepath := output_dir ++ "/" ++ report_type ++ "_" ++ ts ++ ".json"
    let r := jsonDump structured
    if r.2 then ⟨some r.1, some filepath⟩ else ⟨some r.1, Option.none⟩

/-- A scalar as `PerformanceMonitor.safe_int` receives it from a MySQL
row or status dictionary. -/
inductive PyScalar where
  | none
  | int (n : Int)
  | float (q : ℚ)
  | str (s : String)
  | bool (b : Bool)
deriving Repr, DecidableEq

/-- Python `int(q)` on a float: truncation toward zero. -/
def pyTrunc (q : ℚ) : Int := if 0 ≤ q then ⌊q⌋ else ⌈q⌉

/-- Embedding of `PerformanceMonitor.safe_int`: `int(value)` when `value`
is not `None`, with `ValueError`/`TypeError` caught and replaced by the
caller-supplied `default` (0 unless overridden). -/
def safe_int (value : PyScalar) (default : Int) : Int :=
  match value with
  | .none => default
  | .int n => n
  | .float q => pyTrunc q
  | .bool b => if b then 1 else 0
  | .str s =>
    match pyIntOfString s with
    | some n => n
    | Option.none => default

/-- A parsed JSON value, the shape `json.loads` hands to
`AnthropicHandler._process_ai_response`. -/
inductive JVal where
  | null
  | bool (b : Bool)
  | num (q : ℚ)
  | str (s : String)
  | arr (xs : List JVal)
  | obj (kvs : List (String × JVal))
deriving Repr

/-- First-match lookup in a JSON object's members. -/
def jlookup (k : String) : List (String × JVal) → Option JVal
  | [] => Option.none
  | (k', v) :: rest => if k' = k then some v else jlookup k rest

/-- One repaired advisory command: the six fields
`AnthropicHandler._process_ai_response` guarantees. -/
structure AdvisoryCommand where
  id : JVal
  action : JVal
  priority : JVal
  target_service : JVal
  parameters : JVal
  rationale : JVal

/-- The per-command repair at source lines 102–109: every missing field is
defaulted (`id` from a fresh `uuid4` prefix, abstracted by `genId` applied
to the command's position in the batch). -/
def repairCmd (genId : Nat → String) (idx : Nat) (fields : List (String × JVal)) :
    AdvisoryCommand :=
  ⟨(jlookup "id" fields).getD (.str (genId idx)),
   (jlookup "action" fields).getD (.str "unknown_action"),
   (jlookup "priority" fields).getD (.str "medium"),
   (jlookup "target_service" fields).getD (.str "mysql"),
   (jlookup "parameters" fields).getD (.obj []),
   (jlookup "rationale" fields).getD (.str "No rationale provided")⟩

/-- The validation loop at source lines 98–110: dict elements are repaired
and kept, non-dict elements are skipped; no element aborts the batch. -/
def processCommandList (genId : Nat → String) : List JVal → Nat → List AdvisoryCommand
  | [], _ => []
  | c :: rest, i =>
    match c with
    | .obj fields => repairCmd genId i fields :: processCommandList genId rest (i + 1)
    | _ => processCommandList genId rest (i + 1)

/-- Embedding of `AnthropicHandler._process_ai_response` from the parse
result onward: `none` input models `json.JSONDecodeError` (→ `[]`); a dict
response contributes its `commands` member (iterating a non-list value
yields no dict elements, hence no commands); a list response is the batch
itself; any other value yields `[]`. -/
def process_ai_response (genId : Nat → String) (response_data : Option JVal) :
    List AdvisoryCommand :=
  match response_data with
  | Option.none => []
  | some v =>
    let commands : List JVal :=
      match v with
      | .obj kvs =>
        match jlookup "commands" kvs with
        | some (.arr xs) => xs
        | _ => []
      | .arr xs => xs
      | _ => []
    processCommandList genId commands 0

mutual

/-- Inputs on which `_convert_to_serializable` is defect-free: no
namedtuple/object nodes (whose field values the source forgets to recurse
into) and every byte string valid UTF-8 (so the `decode` cannot raise). -/
def safeInput : PyVal → Bool
  | .bytes bs => (utf8Decode bs).isSome
  | .namedtuple _ => false
  | .obj _ => false
  | .list xs => safeInputList xs
  | .tuple xs => safeInputList xs
  | .dict kvs => safeInputKvs kvs
  | _ => true

/-- All elements safe. -/
def safeInputList : List PyVal → Bool
  | [] => true
  | x :: xs => safeInput x && safeInputList xs

/-- All mapping values safe. -/
def safeInputKvs : List (String × PyVal) → Bool
  | [] => true
  | (_, v) :: kvs => safeInput v && safeInputKvs kvs

end

/-- A `query_cache%` variables snapshot with the cache enabled and a
1000-byte cache. -/
def cfgEnabled : List (String × String) :=
  [("query_cache_type", "ON"), ("query_cache_size", "1000")]

/-- A `query_cache%` variables snapshot with the cache enabled and
`query_cache_size` present with value 0. -/
def cfgZeroSize : List (String × String) :=
  [("query_cache_type", "ON"), ("query_cache_size", "0")]

/-- A `query_cache%` variables snapshot with the cache enabled and no
`query_cache_size` row at all. -/
def cfgNoSize : List (String × String) := [("query_cache_type", "ON")]

/-- A `query_cache%` variables snapshot reporting the cache disabled. -/
def cfgOff : List (String × String) :=
  [("query_cache_type", "OFF"), ("query_cache_size", "1000")]

/-- A full `Qcache%` status snapshot with every counter supplied as a
string, exactly the keys `analyze_query_cache` reads. -/
def stFull (hs is bs fs ms ps : String) : List (String × String) :=
  [("Qcache_hits", hs), ("Qcache_inserts", is),
   ("Qcache_total_blocks", bs), ("Qcache_free_blocks", fs),
   ("Qcache_free_memory", ms), ("Qcache_lowmem_prunes", ps)]

/-- A status snapshot in which `Qcache_total_blocks` is absent (so the
`.get` default of 1 applies to the fragmentation denominator). -/
def stNoBlocks : List (String × String) :=
  [("Qcache_hits", "80"), ("Qcache_inserts", "20"),
   ("Qcache_free_blocks", "2"), ("Qcache_free_memory", "500"),
   ("Qcache_lowmem_prunes", "0")]

/-! ## Helper lemmas -/

/-- Parse facts for the concrete counter strings the snapshots use. -/
theorem pf_parse_80 : pyFloatOfString "80" = some 80 := by decide

theorem pf_parse_20 : pyFloatOfString "20" = some 20 := by decide

theorem pf_parse_10 : pyFloatOfString "10" = some 10 := by decide

theorem pf_parse_1 : pyFloatOfString "1" = some 1 := by decide

theorem pf_parse_500 : pyFloatOfString "500" = some 500 := by decide

theorem pf_parse_1000 : pyFloatOfString "1000" = some 1000 := by decide

theorem pi_parse_0 : pyIntOfString "0" = some 0 := by decide

theorem pi_parse_20 : pyIntOfString "20" = some 20 := by decide

/-- Running `analyze_query_cache` on a fully-supplied snapshot whose
counters all parse and whose block count is nonzero reduces to the ratio
formulas and `cacheRules` on the parsed values (`cfgEnabled` fixes
`query_cache_size` to 1000). -/
theorem analyze_stFull (hs is bs fs ms ps : String)
    (hits inserts blocks freeB freeM : ℚ) (prunesI insertsI : Int)
    (hh : pyFloatOfString hs = some hits)
    (hi : pyFloatOfString is = some inserts)
    (hb : pyFloatOfString bs = some blocks)
    (hf : pyFloatOfString fs = some freeB)
    (hm : pyFloatOfString ms = some freeM)
    (hp : pyIntOfString ps = some prunesI)
    (hiI : pyIntOfString is = some insertsI)
    (hbz : blocks ≠ 0) :
    analyze_query_cache cfgEnabled (stFull hs is bs fs ms ps) =
      some ⟨if hits + inserts > 0 then hits / (hits + inserts) * 100 else 0,
        (1000 - freeM) / 1000 * 100, freeB / blocks * 100,
        (cacheRules (if hits + inserts > 0 then hits / (hits + inserts) * 100 else 0)
          ((1000 - freeM) / 1000 * 100) (freeB / blocks * 100)
          (hits + inserts) prunesI insertsI).1,
        (cacheRules (if hits + inserts > 0 then hits / (hits + inserts) * 100 else 0)
          ((1000 - freeM) / 1000 * 100) (freeB / blocks * 100)
          (hits + inserts) prunesI insertsI).2⟩ := by
  simp [analyze_query_cache, cfgEnabled, stFull, getFloatD, getIntD, alookup,
    hh, hi, hb, hf, hm, hp, hiI, hbz, pf_parse_1000]


/-- Which `cacheRules` warnings appear, characterised per rule: each
warning string is in the output exactly when its threshold condition
holds, independently of the other rules. -/
theorem cacheRules_warn_mem (h m f q : ℚ) (p i : Int) :
    (msgLowHit ∈ (cacheRules h m f q p i).1 ↔ h < 30) ∧
    (msgHighMem ∈ (cacheRules h m f q p i).1 ↔ m > 95) ∧
    (msgLowMem ∈ (cacheRules h m f q p i).1 ↔ (¬ m > 95 ∧ m < 20)) ∧
    (msgFrag ∈ (cacheRules h m f q p i).1 ↔ f > 20) ∧
    (msgPrune ∈ (cacheRules h m f q p i).1 ↔ (p : ℚ) > (i : ℚ) / 3) := by
  simp only [cacheRules]
  split_ifs <;>
    simp_all [msgLowHit, msgHighMem, msgLowMem, msgFrag, msgPrune]

/-- Which `cacheRules` recommendations appear, characterised per rule. -/
theorem cacheRules_rec_mem (h m f q : ℚ) (p i : Int) :
    (msgTraffic ∈ (cacheRules h m f q p i).2 ↔ (h < 30 ∧ q > 10000)) ∧
    (msgGoodHit ∈ (cacheRules h m f q p i).2 ↔ (¬ h < 30 ∧ h > 80)) ∧
    (msgIncSize ∈ (cacheRules h m f q p i).2 ↔ m > 95) ∧
    (msgDecSize ∈ (cacheRules h m f q p i).2 ↔ (¬ m > 95 ∧ m < 20)) ∧
    (msgFlush ∈ (cacheRules h m f q p i).2 ↔ f > 20) ∧
    (msgPruneRec ∈ (cacheRules h m f q p i).2 ↔ (p : ℚ) > (i : ℚ) / 3) := by
  simp only [cacheRules]
  split_ifs <;>
    simp_all [msgTraffic, msgGoodHit, msgIncSize, msgDecSize, msgFlush, msgPruneRec]

/-- Concrete run: hits=80, inserts=20, benign other counters.  The hit
ratio is exactly 80 and no rule fires. -/
theorem eval_80_20 :
    analyze_query_cache cfgEnabled (stFull "80" "20" "10" "1" "500" "0") =
      some ⟨80, 50, 10, [], []⟩ := by
  rw [analyze_stFull "80" "20" "10" "1" "500" "0" 80 20 10 1 500 0 20
    pf_parse_80 pf_parse_20 pf_parse_10 pf_parse_1 pf_parse_500 pi_parse_0 pi_parse_20
    (by norm_num)]
  norm_num [cacheRules]

/-! ## C1 — cache hit ratio rule -/

/-- C1 (amended): on any snapshot whose hit/insert counters parse (other
rules held benign), the hit ratio equals hits/(hits+inserts)·100, and 0
when hits+inserts = 0; the low-ratio warning appears exactly when the
ratio is below 30, the increase-size recommendation exactly when the ratio
is below 30 and total queries exceed 10000, and the good-ratio
recommendation exactly when the ratio STRICTLY exceeds 80 (in which case
the low-ratio warning is absent).  At hits=80, inserts=20 the ratio is
exactly 80, which does not exceed 80, so no hit-rule output is produced. -/
theorem c1_hit_ratio_rule (hs is : String) (hits inserts : ℚ) (insertsI : Int)
    (hh : pyFloatOfString hs = some hits)
    (hi : pyFloatOfString is = some inserts)
    (hiI : pyIntOfString is = some insertsI) :
    ∀ a, analyze_query_cache cfgEnabled (stFull hs is "10" "1" "500" "0") = some a →
      (a.hit_ratio = if hits + inserts > 0 then hits / (hits + inserts) * 100 else 0) ∧
      (msgLowHit ∈ a.warnings ↔ a.hit_ratio < 30) ∧
      (msgTraffic ∈ a.recommendations ↔ (a.hit_ratio < 30 ∧ hits + inserts > 10000)) ∧
      (msgGoodHit ∈ a.recommendations ↔ a.hit_ratio > 80) ∧
      (a.hit_ratio > 80 → msgLowHit ∉ a.warnings) := by
  intro a ha
  rw [analyze_stFull hs is "10" "1" "500" "0" hits inserts 10 1 500 0 insertsI
    hh hi pf_parse_10 pf_parse_1 pf_parse_500 pi_parse_0 hiI (by norm_num)] at ha
  obtain rfl := (Option.some.injEq _ _).mp ha.symm
  set h := if hits + inserts > 0 then hits / (hits + inserts) * 100 else 0 with hdef
  refine ⟨rfl, ?_, ?_, ?_, ?_⟩
  · exact (cacheRules_warn_mem h _ _ (hits + inserts) 0 insertsI).1
  · exact (cacheRules_rec_mem h _ _ (hits + inserts) 0 insertsI).1
  · constructor
    · intro hmem
      exact ((cacheRules_rec_mem h _ _ (hits + inserts) 0 insertsI).2.1.mp hmem).2
    · intro hgt
      exact (cacheRules_rec_mem h _ _ (hits + inserts) 0 insertsI).2.1.mpr ⟨by linarith, hgt⟩
  · intro hgt hmem
    have := (cacheRules_warn_mem h _ _ (hits + inserts) 0 insertsI).1.mp hmem
    linarith

/-- C1 witness: the amended rule instantiated at hits=80, inserts=20. -/
theorem c1_hit_ratio_rule_witness :
    ((80 : ℚ) = if (80 : ℚ) + 20 > 0 then 80 / (80 + 20) * 100 else 0) ∧
    (msgLowHit ∈ ([] : List String) ↔ (80 : ℚ) < 30) ∧
    (msgTraffic ∈ ([] : List String) ↔ ((80 : ℚ) < 30 ∧ (80 : ℚ) + 20 > 10000)) ∧
    (msgGoodHit ∈ ([] : List String) ↔ (80 : ℚ) > 80) ∧
    ((80 : ℚ) > 80 → msgLowHit ∉ ([] : List String)) :=
  c1_hit_ratio_rule "80" "20" 80 20 20 pf_parse_80 pf_parse_20 pi_parse_20
    ⟨80, 50, 10, [], []⟩ eval_80_20

/-- C1 counterexample: at hits=80, inserts=20 the hit ratio is exactly
80.0%, and the "good ratio" recommendation is NOT produced (the
recommendation list is empty), contrary to the claim's final example. -/
theorem c1_counterexample :
    analyze_query_cache cfgEnabled (stFull "80" "20" "10" "1" "500" "0") =
      some ⟨80, 50, 10, [], []⟩ ∧ msgGoodHit ∉ ([] : List String) :=
  ⟨eval_80_20, by simp⟩

/-! ## C2 — absence default vs floor on ratio denominators -/

theorem pf_parse_0 : pyFloatOfString "0" = some 0 := by decide

theorem pf_parse_2 : pyFloatOfString "2" = some 2 := by decide

theorem pf_parse_9 : pyFloatOfString "9" = some 9 := by decide

theorem pf_parse_4 : pyFloatOfString "4" = some 4 := by decide

theorem pf_parse_950 : pyFloatOfString "950" = some 950 := by decide

theorem pf_parse_100 : pyFloatOfString "100" = some 100 := by decide

theorem pi_parse_1 : pyIntOfString "1" = some 1 := by decide

theorem pi_parse_9 : pyIntOfString "9" = some 9 := by decide

theorem pi_parse_100 : pyIntOfString "100" = some 100 := by decide

/-- C2 (amended): the `.get(..., 1)` defaults on `Qcache_total_blocks` and
`query_cache_size` are absence defaults, not floors.  When the counter is
PRESENT with value 0 the division raises `ZeroDivisionError`, which the
handler catches, so the whole evaluation aborts with `None` and produces no
warnings or recommendations; only when the counter is ABSENT is the ratio
computed with denominator 1. -/
theorem c2_denominator_default (hs is fs : String) (hits inserts freeB : ℚ)
    (hh : pyFloatOfString hs = some hits)
    (hi : pyFloatOfString is = some inserts)
    (hf : pyFloatOfString fs = some freeB) :
    (analyze_query_cache cfgEnabled (stFull hs is "0" fs "500" "0") = none) ∧
    (analyze_query_cache cfgZeroSize (stFull "80" "20" "10" "1" "500" "0") = none) ∧
    (analyze_query_cache cfgEnabled stNoBlocks =
      some ⟨80, 50, 200, [msgFrag], [msgFlush]⟩) ∧
    (analyze_query_cache cfgNoSize (stFull "80" "20" "10" "1" "500" "0") =
      some ⟨80, -49900, 10, [msgLowMem], [msgDecSize]⟩) := by
  refine ⟨?_, ?_, ?_, ?_⟩
  · simp [analyze_query_cache, cfgEnabled, stFull, getFloatD, alookup, hh, hi, hf,
      pf_parse_0]
  · simp [analyze_query_cache, cfgZeroSize, stFull, getFloatD, getIntD, alookup,
      pf_parse_80, pf_parse_20, pf_parse_10, pf_parse_1, pf_parse_500, pf_parse_0]
  · simp [analyze_query_cache, cfgEnabled, stNoBlocks, getFloatD, getIntD, alookup,
      pf_parse_80, pf_parse_20, pf_parse_2, pf_parse_500, pf_parse_1000,
      pi_parse_0, pi_parse_20]
    norm_num [cacheRules, CacheAnalysis.mk.injEq]
  · simp [analyze_query_cache, cfgNoSize, stFull, getFloatD, getIntD, alookup,
      pf_parse_80, pf_parse_20, pf_parse_10, pf_parse_1, pf_parse_500,
      pi_parse_0, pi_parse_20]
    norm_num [cacheRules, CacheAnalysis.mk.injEq]

/-- C2 witness: the amended statement instantiated at hits=80, inserts=20,
free_blocks=1. -/
theorem c2_denominator_default_witness :
    (analyze_query_cache cfgEnabled (stFull "80" "20" "0" "1" "500" "0") = none) ∧
    (analyze_query_cache cfgZeroSize (stFull "80" "20" "10" "1" "500" "0") = none) ∧
    (analyze_query_cache cfgEnabled stNoBlocks =
      some ⟨80, 50, 200, [msgFrag], [msgFlush]⟩) ∧
    (analyze_query_cache cfgNoSize (stFull "80" "20" "10" "1" "500" "0") =
      some ⟨80, -49900, 10, [msgLowMem], [msgDecSize]⟩) :=
  c2_denominator_default "80" "20" "1" 80 20 1 pf_parse_80 pf_parse_20 pf_parse_1

/-- C2 counterexample: a snapshot with `Qcache_total_blocks` present and
equal to 0 does NOT complete with well-defined ratios — the evaluation
aborts and returns `None`, producing no warnings or recommendations. -/
theorem c2_counterexample :
    analyze_query_cache cfgEnabled (stFull "80" "20" "0" "1" "500" "0") = none ∧
    (analyze_query_cache cfgEnabled (stFull "80" "20" "0" "1" "500" "0")).isSome = false := by
  constructor
  · simp [analyze_query_cache, cfgEnabled, stFull, getFloatD, alookup,
      pf_parse_80, pf_parse_20, pf_parse_1, pf_parse_0]
  · simp [analyze_query_cache, cfgEnabled, stFull, getFloatD, alookup,
      pf_parse_80, pf_parse_20, pf_parse_1, pf_parse_0]

/-! ## C3 — eviction-pressure rule has no insert-count guard -/

/-- Concrete run with hits=80, inserts=0, prunes=1: the eviction rule
fires even though the insert count is zero. -/
theorem eval_evict :
    analyze_query_cache cfgEnabled (stFull "80" "0" "10" "1" "500" "1") =
      some ⟨100, 50, 10, [msgPrune], [msgGoodHit, msgPruneRec]⟩ := by
  rw [analyze_stFull "80" "0" "10" "1" "500" "1" 80 0 10 1 500 1 0
    pf_parse_80 pf_parse_0 pf_parse_10 pf_parse_1 pf_parse_500 pi_parse_1 pi_parse_0
    (by norm_num)]
  norm_num [cacheRules, CacheAnalysis.mk.injEq]

/-- C3 (amended): whenever the cache is enabled the eviction rule is
evaluated unconditionally — there is no `insert_count > 0` guard.  Python's
`/` is float division, so `insert_count = 0` raises nothing, and the rule
fires exactly when eviction_count > insert_count / 3; in particular with
insert_count = 0 any positive eviction count produces the warning. -/
theorem c3_eviction_rule_unguarded (ps is : String) (inserts : ℚ)
    (prunesI insertsI : Int)
    (hi : pyFloatOfString is = some inserts)
    (hp : pyIntOfString ps = some prunesI)
    (hiI : pyIntOfString is = some insertsI) :
    ∀ a, analyze_query_cache cfgEnabled (stFull "80" is "10" "1" "500" ps) = some a →
      (msgPrune ∈ a.warnings ↔ (prunesI : ℚ) > (insertsI : ℚ) / 3) ∧
      (msgPruneRec ∈ a.recommendations ↔ (prunesI : ℚ) > (insertsI : ℚ) / 3) := by
  intro a ha
  rw [analyze_stFull "80" is "10" "1" "500" ps 80 inserts 10 1 500 prunesI insertsI
    pf_parse_80 hi pf_parse_10 pf_parse_1 pf_parse_500 hp hiI (by norm_num)] at ha
  obtain rfl := (Option.some.injEq _ _).mp ha.symm
  constructor
  · exact (cacheRules_warn_mem _ _ _ (80 + inserts) prunesI insertsI).2.2.2.2
  · exact (cacheRules_rec_mem _ _ _ (80 + inserts) prunesI insertsI).2.2.2.2.2

/-- C3 witness: the amended rule instantiated at prunes=1, inserts=0. -/
theorem c3_eviction_rule_unguarded_witness :
    (msgPrune ∈ [msgPrune] ↔ ((1 : Int) : ℚ) > ((0 : Int) : ℚ) / 3) ∧
    (msgPruneRec ∈ [msgGoodHit, msgPruneRec] ↔ ((1 : Int) : ℚ) > ((0 : Int) : ℚ) / 3) :=
  c3_eviction_rule_unguarded "1" "0" 0 1 0 pf_parse_0 pi_parse_1 pi_parse_0
    ⟨100, 50, 10, [msgPrune], [msgGoodHit, msgPruneRec]⟩ eval_evict

/-- C3 counterexample: with insert_count = 0 and eviction_count = 1 the
rule is NOT skipped — the low-memory warning and its recommendation are
emitted. -/
theorem c3_counterexample :
    analyze_query_cache cfgEnabled (stFull "80" "0" "10" "1" "500" "1") =
      some ⟨100, 50, 10, [msgPrune], [msgGoodHit, msgPruneRec]⟩ ∧
    msgPrune ∈ [msgPrune] :=
  ⟨eval_evict, by simp⟩

/-! ## C4 — disabled cache emits one warning, not none -/

/-- Concrete run with the cache reported `OFF` and an empty status
snapshot: the metric phase completes on defaults and the result carries
exactly one warning. -/
theorem eval_off_empty :
    analyze_query_cache cfgOff [] = some ⟨0, 100, 0, [msgDisabled], []⟩ := by
  simp [analyze_query_cache, cfgOff, getFloatD, getIntD, alookup, pf_parse_1000]

/-- C4 (amended): when the cache subsystem reports itself disabled
(`query_cache_type = 'OFF'`), the threshold rules are skipped, but the
result is NOT empty: the warning list is exactly
`["Query Cache is currently disabled"]` and the recommendation list is
empty, for every snapshot on which the metric phase completes. -/
theorem c4_disabled_single_warning (cfg st : List (String × String))
    (hOff : alookup "query_cache_type" cfg = some "OFF") :
    ∀ a, analyze_query_cache cfg st = some a →
      a.warnings = [msgDisabled] ∧ a.recommendations = [] := by
  intro a ha
  have bindS : ∀ {α β : Type} (x : α) (f : α → Option β), ((some x : Option α) >>= f) = f x :=
    fun _ _ => rfl
  have bindN : ∀ {α β : Type} (f : α → Option β), ((none : Option α) >>= f) = none :=
    fun _ => rfl
  simp only [analyze_query_cache, hOff, reduceIte] at ha
  rcases h1 : getFloatD st "Qcache_hits" 0 with _ | hits
  · rw [h1, bindN] at ha; exact Option.noConfusion ha
  rw [h1, bindS] at ha
  rcases h2 : getFloatD st "Qcache_inserts" 0 with _ | inserts
  · rw [h2, bindN] at ha; exact Option.noConfusion ha
  rw [h2, bindS] at ha
  rcases h3 : getFloatD st "Qcache_total_blocks" 1 with _ | tb
  · rw [h3, bindN] at ha; exact Option.noConfusion ha
  rw [h3, bindS] at ha
  rcases h4 : getFloatD st "Qcache_free_blocks" 0 with _ | fb
  · rw [h4, bindN] at ha; exact Option.noConfusion ha
  rw [h4, bindS] at ha
  by_cases htb : tb = 0
  · rw [if_pos htb, bindN] at ha; exact Option.noConfusion ha
  rw [if_neg htb, bindS] at ha
  rcases h5 : getFloatD st "Qcache_free_memory" 0 with _ | mu
  · rw [h5, bindN] at ha; exact Option.noConfusion ha
  rw [h5, bindS] at ha
  rcases h6 : getFloatD cfg "query_cache_size" 1 with _ | tm
  · rw [h6, bindN] at ha; exact Option.noConfusion ha
  rw [h6, bindS] at ha
  by_cases htm : tm = 0
  · rw [if_pos htm, bindN] at ha; exact Option.noConfusion ha
  rw [if_neg htm, bindS] at ha
  obtain rfl := (Option.some.injEq _ _).mp ha.symm
  exact ⟨rfl, rfl⟩

/-- C4 witness: the disabled-cache behaviour at the concrete `OFF`
configuration with an empty status snapshot. -/
theorem c4_disabled_single_warning_witness :
    (CacheAnalysis.mk 0 100 0 [msgDisabled] []).warnings = [msgDisabled] ∧
    (CacheAnalysis.mk 0 100 0 [msgDisabled] []).recommendations = [] :=
  c4_disabled_single_warning cfgOff [] (by decide)
    ⟨0, 100, 0, [msgDisabled], []⟩ eval_off_empty

/-- C4 counterexample: with the cache disabled the warning list is NOT
empty — it contains the "Query Cache is currently disabled" warning. -/
theorem c4_counterexample :
    analyze_query_cache cfgOff [] = some ⟨0, 100, 0, [msgDisabled], []⟩ ∧
    [msgDisabled] ≠ ([] : List String) :=
  ⟨eval_off_empty, by simp⟩

/-! ## C5 — rule purity and evaluation order -/

/-- Concrete run in which all four rules fire (hits=1, inserts=9, memory
usage 5%, fragmentation 40%, prunes=100). -/
theorem eval_all_fire :
    analyze_query_cache cfgEnabled (stFull "1" "9" "10" "4" "950" "100") =
      some ⟨10, 5, 40, [msgLowHit, msgLowMem, msgFrag, msgPrune],
        [msgDecSize, msgFlush, msgPruneRec]⟩ := by
  rw [analyze_stFull "1" "9" "10" "4" "950" "100" 1 9 10 4 950 100 9
    pf_parse_1 pf_parse_9 pf_parse_10 pf_parse_4 pf_parse_950 pi_parse_100 pi_parse_9
    (by norm_num)]
  norm_num [cacheRules, CacheAnalysis.mk.injEq]

/-- C5 (amended): the evaluator is a pure function of its snapshot (equal
inputs give equal outputs), and the rules are evaluated in the source's
fixed order — hit ratio, then MEMORY USAGE, then FRAGMENTATION, then
low-memory eviction — with the output list order equal to that evaluation
order (the warning list decomposes as the concatenation of the four rules'
contributions in that order). -/
theorem c5_pure_and_ordered :
    (∀ c₁ c₂ s₁ s₂ : List (String × String), c₁ = c₂ → s₁ = s₂ →
      analyze_query_cache c₁ s₁ = analyze_query_cache c₂ s₂) ∧
    (∀ h m f q : ℚ, ∀ p i : Int,
      (cacheRules h m f q p i).1 =
        (if h < 30 then [msgLowHit] else []) ++
        ((if m > 95 then [msgHighMem] else if m < 20 then [msgLowMem] else []) ++
         ((if f > 20 then [msgFrag] else []) ++
          (if (p : ℚ) > (i : ℚ) / 3 then [msgPrune] else [])))) ∧
    (analyze_query_cache cfgEnabled (stFull "1" "9" "10" "4" "950" "100") =
      some ⟨10, 5, 40, [msgLowHit, msgLowMem, msgFrag, msgPrune],
        [msgDecSize, msgFlush, msgPruneRec]⟩) := by
  refine ⟨?_, ?_, eval_all_fire⟩
  · intro c₁ c₂ s₁ s₂ hc hs
    rw [hc, hs]
  · intro h m f q p i
    simp [cacheRules]

/-- C5 witness: purity and the order decomposition at concrete inputs. -/
theorem c5_pure_and_ordered_witness :
    analyze_query_cache cfgEnabled [] = analyze_query_cache cfgEnabled [] ∧
    (cacheRules 10 5 40 10 100 9).1 =
      (if (10 : ℚ) < 30 then [msgLowHit] else []) ++
      ((if (5 : ℚ) > 95 then [msgHighMem] else if (5 : ℚ) < 20 then [msgLowMem] else []) ++
       ((if (40 : ℚ) > 20 then [msgFrag] else []) ++
        (if ((100 : Int) : ℚ) > ((9 : Int) : ℚ) / 3 then [msgPrune] else []))) :=
  ⟨c5_pure_and_ordered.1 cfgEnabled cfgEnabled [] [] rfl rfl,
   c5_pure_and_ordered.2.1 10 5 40 10 100 9⟩

/-- C5 counterexample: on a snapshot firing all four rules the warning
list has the memory-usage warning BEFORE the fragmentation warning, so it
differs from the order the claim states (hit, fragmentation, memory,
eviction). -/
theorem c5_counterexample :
    analyze_query_cache cfgEnabled (stFull "1" "9" "10" "4" "950" "100") =
      some ⟨10, 5, 40, [msgLowHit, msgLowMem, msgFrag, msgPrune],
        [msgDecSize, msgFlush, msgPruneRec]⟩ ∧
    [msgLowHit, msgLowMem, msgFrag, msgPrune] ≠
      [msgLowHit, msgFrag, msgLowMem, msgPrune] :=
  ⟨eval_all_fire, by simp [msgLowMem, msgFrag]⟩

/-! ## C6 — three independent table-health checks -/

/-- Two strings with a common prefix and suffixes of different lengths
differ. -/
theorem append_suffix_ne (a n s1 s2 : String) (h : s1.length ≠ s2.length) :
    a ++ n ++ s1 ≠ a ++ n ++ s2 := by
  intro he
  have h2 := congrArg String.length he
  simp [String.length_append] at h2
  exact h h2

/-- Two strings with prefixes of different lengths and a common suffix
differ. -/
theorem append_prefix_ne (p1 p2 n : String) (h : p1.length ≠ p2.length) :
    p1 ++ n ≠ p2 ++ n := by
  intro he
  have h2 := congrArg String.length he
  simp [String.length_append] at h2
  exact h h2

/-- Which `tableChecks` outputs appear, characterised per check: each of
the three checks contributes its warning and recommendation exactly when
its own condition holds, independently of the other two. -/
theorem tableChecks_mem (t : TableStat) :
    (msgNoIdx t ∈ (tableChecks t).1 ↔ t.Index_Size = 0) ∧
    (msgBigTable t ∈ (tableChecks t).1 ↔ t.Data_Size > 1073741824) ∧
    (msgFreeSpace t ∈ (tableChecks t).1 ↔
      (t.Free_Space : ℚ) > (t.Data_Size : ℚ) * (2 / 10)) ∧
    (msgAddIdx t ∈ (tableChecks t).2 ↔ t.Index_Size = 0) ∧
    (msgPartition t ∈ (tableChecks t).2 ↔ t.Data_Size > 1073741824) ∧
    (msgOptimize t ∈ (tableChecks t).2 ↔
      (t.Free_Space : ℚ) > (t.Data_Size : ℚ) * (2 / 10)) := by
  have hw1 : msgNoIdx t ≠ msgBigTable t :=
    append_suffix_ne "Table " (tableName t) _ _ (by decide)
  have hw2 : msgNoIdx t ≠ msgFreeSpace t :=
    append_suffix_ne "Table " (tableName t) _ _ (by decide)
  have hw3 : msgBigTable t ≠ msgFreeSpace t :=
    append_suffix_ne "Table " (tableName t) _ _ (by decide)
  have hr1 : msgAddIdx t ≠ msgPartition t :=
    append_prefix_ne _ _ (tableName t) (by decide)
  have hr2 : msgAddIdx t ≠ msgOptimize t :=
    append_prefix_ne _ _ (tableName t) (by decide)
  have hr3 : msgPartition t ≠ msgOptimize t :=
    append_prefix_ne _ _ (tableName t) (by decide)
  simp only [tableChecks]
  split_ifs <;>
    simp_all [hw1.symm, hw2.symm, hw3.symm, hr1.symm, hr2.symm, hr3.symm]

/-- C6: per table three independent checks — no indexes, larger than 2^30
bytes (strict), free space above 20% of data size — each contributing its
warning and recommendation exactly when its condition holds, so any subset
can fire; the spec's two examples evaluate as stated. -/
theorem c6_table_health (t : TableStat) :
    (msgNoIdx t ∈ (analyze_table_health (some [t])).1 ↔ t.Index_Size = 0) ∧
    (msgBigTable t ∈ (analyze_table_health (some [t])).1 ↔ t.Data_Size > 1073741824) ∧
    (msgFreeSpace t ∈ (analyze_table_health (some [t])).1 ↔
      (t.Free_Space : ℚ) > (t.Data_Size : ℚ) * (2 / 10)) ∧
    (msgAddIdx t ∈ (analyze_table_health (some [t])).2 ↔ t.Index_Size = 0) ∧
    (msgPartition t ∈ (analyze_table_health (some [t])).2 ↔ t.Data_Size > 1073741824) ∧
    (msgOptimize t ∈ (analyze_table_health (some [t])).2 ↔
      (t.Free_Space : ℚ) > (t.Data_Size : ℚ) * (2 / 10)) ∧
    (analyze_table_health (some [⟨"shop", "orders", 1073741825, 5, 0⟩]) =
      ([msgBigTable ⟨"shop", "orders", 1073741825, 5, 0⟩],
       [msgPartition ⟨"shop", "orders", 1073741825, 5, 0⟩])) ∧
    (analyze_table_health (some [⟨"shop", "users", 100, 0, 30⟩]) =
      ([msgNoIdx ⟨"shop", "users", 100, 0, 30⟩,
        msgFreeSpace ⟨"shop", "users", 100, 0, 30⟩],
       [msgAddIdx ⟨"shop", "users", 100, 0, 30⟩,
        msgOptimize ⟨"shop", "users", 100, 0, 30⟩])) := by
  have hsingle : analyze_table_health (some [t]) = tableChecks t := by
    simp [analyze_table_health]
  rw [hsingle]
  obtain ⟨m1, m2, m3, m4, m5, m6⟩ := tableChecks_mem t
  refine ⟨m1, m2, m3, m4, m5, m6, ?_, ?_⟩
  · norm_num [analyze_table_health, tableChecks]
  · norm_num [analyze_table_health, tableChecks]

/-- C6 witness: the characterisation applied to the spec's second example
table (no indexes, 100 bytes data, 30 bytes free). -/
theorem c6_table_health_witness :
    (msgNoIdx ⟨"shop", "users", 100, 0, 30⟩ ∈
        (analyze_table_health (some [⟨"shop", "users", 100, 0, 30⟩])).1 ↔
      (⟨"shop", "users", 100, 0, 30⟩ : TableStat).Index_Size = 0) ∧
    (msgBigTable ⟨"shop", "users", 100, 0, 30⟩ ∈
        (analyze_table_health (some [⟨"shop", "users", 100, 0, 30⟩])).1 ↔
      (⟨"shop", "users", 100, 0, 30⟩ : TableStat).Data_Size > 1073741824) ∧
    (msgFreeSpace ⟨"shop", "users", 100, 0, 30⟩ ∈
        (analyze_table_health (some [⟨"shop", "users", 100, 0, 30⟩])).1 ↔
      ((⟨"shop", "users", 100, 0, 30⟩ : TableStat).Free_Space : ℚ) >
        ((⟨"shop", "users", 100, 0, 30⟩ : TableStat).Data_Size : ℚ) * (2 / 10)) ∧
    (msgAddIdx ⟨"shop", "users", 100, 0, 30⟩ ∈
        (analyze_table_health (some [⟨"shop", "users", 100, 0, 30⟩])).2 ↔
      (⟨"shop", "users", 100, 0, 30⟩ : TableStat).Index_Size = 0) ∧
    (msgPartition ⟨"shop", "users", 100, 0, 30⟩ ∈
        (analyze_table_health (some [⟨"shop", "users", 100, 0, 30⟩])).2 ↔
      (⟨"shop", "users", 100, 0, 30⟩ : TableStat).Data_Size > 1073741824) ∧
    (msgOptimize ⟨"shop", "users", 100, 0, 30⟩ ∈
        (analyze_table_health (some [⟨"shop", "users", 100, 0, 30⟩])).2 ↔
      ((⟨"shop", "users", 100, 0, 30⟩ : TableStat).Free_Space : ℚ) >
        ((⟨"shop", "users", 100, 0, 30⟩ : TableStat).Data_Size : ℚ) * (2 / 10)) ∧
    (analyze_table_health (some [⟨"shop", "orders", 1073741825, 5, 0⟩]) =
      ([msgBigTable ⟨"shop", "orders", 1073741825, 5, 0⟩],
       [msgPartition ⟨"shop", "orders", 1073741825, 5, 0⟩])) ∧
    (analyze_table_health (some [⟨"shop", "users", 100, 0, 30⟩]) =
      ([msgNoIdx ⟨"shop", "users", 100, 0, 30⟩,
        msgFreeSpace ⟨"shop", "users", 100, 0, 30⟩],
       [msgAddIdx ⟨"shop", "users", 100, 0, 30⟩,
        msgOptimize ⟨"shop", "users", 100, 0, 30⟩])) :=
  c6_table_health ⟨"shop", "users", 100, 0, 30⟩

/-! ## C7 — serialization conversion -/

mutual

/-- On defect-free inputs (no record/object nodes, all bytes valid UTF-8)
the conversion succeeds and yields a primitive-only result. -/
theorem convertSafe : ∀ v : PyVal, safeInput v = true →
    ∃ r, convert_to_serializable v = some r ∧ isPrimitiveOnly r = true
  | .none, _ => ⟨.none, by simp [convert_to_serializable], by simp [isPrimitiveOnly]⟩
  | .bool b, _ => ⟨.bool b, by simp [convert_to_serializable], by simp [isPrimitiveOnly]⟩
  | .int n, _ => ⟨.int n, by simp [convert_to_serializable], by simp [isPrimitiveOnly]⟩
  | .float q, _ => ⟨.float q, by simp [convert_to_serializable], by simp [isPrimitiveOnly]⟩
  | .str s, _ => ⟨.str s, by simp [convert_to_serializable], by simp [isPrimitiveOnly]⟩
  | .exotic s, _ => ⟨.str s, by simp [convert_to_serializable], by simp [isPrimitiveOnly]⟩
  | .datetime iso, _ =>
    ⟨.str iso, by simp [convert_to_serializable], by simp [isPrimitiveOnly]⟩
  | .bytes bs, h => by
    rw [safeInput] at h
    obtain ⟨cps, hc⟩ := Option.isSome_iff_exists.mp h
    exact ⟨.str (String.mk (cps.map Char.ofNat)),
      by simp [convert_to_serializable, bytesDecodeUtf8, hc],
      by simp [isPrimitiveOnly]⟩
  | .namedtuple fs, h => by rw [safeInput] at h; exact absurd h (by simp)
  | .obj fs, h => by rw [safeInput] at h; exact absurd h (by simp)
  | .list xs, h => by
    obtain ⟨rs, hc, hp⟩ := convertSafeList xs (by rw [safeInput] at h; exact h)
    exact ⟨.list rs, by simp [convert_to_serializable, hc],
      by rw [isPrimitiveOnly]; exact hp⟩
  | .tuple xs, h => by
    obtain ⟨rs, hc, hp⟩ := convertSafeList xs (by rw [safeInput] at h; exact h)
    exact ⟨.list rs, by simp [convert_to_serializable, hc],
      by rw [isPrimitiveOnly]; exact hp⟩
  | .dict kvs, h => by
    obtain ⟨rs, hc, hp⟩ := convertSafeKvs kvs (by rw [safeInput] at h; exact h)
    exact ⟨.dict rs, by simp [convert_to_serializable, hc],
      by rw [isPrimitiveOnly]; exact hp⟩

/-- Elementwise version of `convertSafe`. -/
theorem convertSafeList : ∀ xs : List PyVal, safeInputList xs = true →
    ∃ rs, convertList xs = some rs ∧ isPrimitiveOnlyList rs = true
  | [], _ => ⟨[], by simp [convertList], by simp [isPrimitiveOnlyList]⟩
  | x :: xs, h => by
    rw [safeInputList, Bool.and_eq_true] at h
    obtain ⟨r, hc, hp⟩ := convertSafe x h.1
    obtain ⟨rs, hcs, hps⟩ := convertSafeList xs h.2
    exact ⟨r :: rs, by simp [convertList, hc, hcs],
      by rw [isPrimitiveOnlyList, Bool.and_eq_true]; exact ⟨hp, hps⟩⟩

/-- Valuewise version of `convertSafe`. -/
theorem convertSafeKvs : ∀ kvs : List (String × PyVal), safeInputKvs kvs = true →
    ∃ rs, convertKvs kvs = some rs ∧ isPrimitiveOnlyKvs rs = true
  | [], _ => ⟨[], by simp [convertKvs], by simp [isPrimitiveOnlyKvs]⟩
  | (k, v) :: kvs, h => by
    rw [safeInputKvs, Bool.and_eq_true] at h
    obtain ⟨r, hc, hp⟩ := convertSafe v h.1
    obtain ⟨rs, hcs, hps⟩ := convertSafeKvs kvs h.2
    exact ⟨(k, r) :: rs, by simp [convertKvs, hc, hcs],
      by rw [isPrimitiveOnlyKvs, Bool.and_eq_true]; exact ⟨hp, hps⟩⟩

end

/-- C7 (amended): the conversion recursively reduces primitives, datetimes,
valid-UTF-8 byte strings, sequences, mappings and opaque values to
primitive-only structures; but the `_asdict`/`__dict__` branches return the
field map with its values UNCONVERTED, and a byte string that is not valid
UTF-8 raises (`UnicodeDecodeError`) instead of falling back to `str`. -/
theorem c7_convert_partially_recursive (v : PyVal) (fields : List (String × PyVal))
    (bs : List Nat) (hs : safeInput v = true) (hbad : utf8Decode bs = Option.none) :
    (∃ r, convert_to_serializable v = some r ∧ isPrimitiveOnly r = true) ∧
    (convert_to_serializable (.obj fields) = some (.dict fields)) ∧
    (convert_to_serializable (.namedtuple fields) = some (.dict fields)) ∧
    (convert_to_serializable (.bytes bs) = Option.none) :=
  ⟨convertSafe v hs, by simp [convert_to_serializable],
    by simp [convert_to_serializable],
    by simp [convert_to_serializable, bytesDecodeUtf8, hbad]⟩

/-- C7 witness: the amended statement at a concrete safe input and the
invalid byte 0xFF. -/
theorem c7_convert_partially_recursive_witness :
    (∃ r, convert_to_serializable (.list [.datetime "2024-01-01", .int 3]) = some r ∧
      isPrimitiveOnly r = true) ∧
    (convert_to_serializable (.obj [("t", .datetime "2024-01-01")]) =
      some (.dict [("t", .datetime "2024-01-01")])) ∧
    (convert_to_serializable (.namedtuple [("t", .datetime "2024-01-01")]) =
      some (.dict [("t", .datetime "2024-01-01")])) ∧
    (convert_to_serializable (.bytes [255]) = Option.none) :=
  c7_convert_partially_recursive (.list [.datetime "2024-01-01", .int 3])
    [("t", .datetime "2024-01-01")] [255]
    (by simp [safeInput, safeInputList])
    (by decide)

/-- C7 counterexample: converting an object whose `__dict__` holds a
datetime yields a mapping whose value is still a raw datetime — NOT a
primitive-only structure — because the `__dict__` branch does not recurse
into the field values. -/
theorem c7_counterexample :
    convert_to_serializable (.obj [("t", .datetime "2024-01-01T00:00:00")]) =
      some (.dict [("t", .datetime "2024-01-01T00:00:00")]) ∧
    isPrimitiveOnly (.dict [("t", .datetime "2024-01-01T00:00:00")]) = false := by
  constructor
  · simp [convert_to_serializable]
  · simp [isPrimitiveOnly, isPrimitiveOnlyKvs]

/-! ## C8 — report sink streaming behaviour -/

mutual

/-- JSON encoding completes on primitive-only values. -/
theorem dumpPrim : ∀ v : PyVal, isPrimitiveOnly v = true → (jsonDump v).2 = true
  | .none, _ => by simp [jsonDump]
  | .bool b, _ => by simp [jsonDump]
  | .int n, _ => by simp [jsonDump]
  | .float q, _ => by simp [jsonDump]
  | .str s, _ => by simp [jsonDump]
  | .list xs, h => by
    have hx := dumpPrimElems xs (by rw [isPrimitiveOnly] at h; exact h)
    simp [jsonDump, hx]
  | .dict kvs, h => by
    have hx := dumpPrimKvs kvs (by rw [isPrimitiveOnly] at h; exact h)
    simp [jsonDump, hx]
  | .tuple xs, h => by simp [isPrimitiveOnly] at h
  | .bytes bs, h => by simp [isPrimitiveOnly] at h
  | .datetime iso, h => by simp [isPrimitiveOnly] at h
  | .namedtuple fs, h => by simp [isPrimitiveOnly] at h
  | .obj fs, h => by simp [isPrimitiveOnly] at h
  | .exotic s, h => by simp [isPrimitiveOnly] at h

/-- Elementwise version of `dumpPrim`. -/
theorem dumpPrimElems : ∀ xs : List PyVal, isPrimitiveOnlyList xs = true →
    (jsonDumpElems xs).2 = true
  | [], _ => by simp [jsonDumpElems]
  | [x], h => by
    rw [isPrimitiveOnlyList, Bool.and_eq_true] at h
    simpa [jsonDumpElems] using dumpPrim x h.1
  | x :: y :: xs, h => by
    rw [isPrimitiveOnlyList, Bool.and_eq_true] at h
    have h1 := dumpPrim x h.1
    have h2 := dumpPrimElems (y :: xs) h.2
    simp [jsonDumpElems, h1, h2]

/-- Memberwise version of `dumpPrim`. -/
theorem dumpPrimKvs : ∀ kvs : List (String × PyVal), isPrimitiveOnlyKvs kvs = true →
    (jsonDumpKvs kvs).2 = true
  | [], _ => by simp [jsonDumpKvs]
  | [(k, v)], h => by
    rw [isPrimitiveOnlyKvs, Bool.and_eq_true] at h
    simpa [jsonDumpKvs] using dumpPrim v h.1
  | (k, v) :: kv :: kvs, h => by
    rw [isPrimitiveOnlyKvs, Bool.and_eq_true] at h
    have h1 := dumpPrim v h.1
    have h2 := dumpPrimKvs (kv :: kvs) h.2
    simp [jsonDumpKvs, h1, h2]

end

/-- C8 (amended): `save_report` converts fully in memory before the file is
opened — a conversion failure leaves no file — but JSON encoding then
STREAMS into the already-open file: if the converted structure still
contains a non-primitive (possible, since the conversion does not recurse
into object fields), the dump fails mid-write and a partial file remains;
when the converted structure is primitive-only, a complete file is written
and its path returned. -/
theorem c8_sink_streaming (d ts iso rt : String) (v : PyVal) :
    (convert_to_serializable v = Option.none →
      save_report d ts iso v rt = ⟨Option.none, Option.none⟩) ∧
    (∀ w, prepare_report_data iso v = some w →
      ((jsonDump w).2 = true →
        save_report d ts iso v rt =
          ⟨some (jsonDump w).1, some (d ++ "/" ++ rt ++ "_" ++ ts ++ ".json")⟩) ∧
      ((jsonDump w).2 = false →
        save_report d ts iso v rt = ⟨some (jsonDump w).1, Option.none⟩)) ∧
    (∀ r, convert_to_serializable v = some r → isPrimitiveOnly r = true →
      (save_report d ts iso v rt).ret =
        some (d ++ "/" ++ rt ++ "_" ++ ts ++ ".json")) := by
  refine ⟨?_, ?_, ?_⟩
  · intro hc
    simp [save_report, prepare_report_data, hc]
  · intro w hw
    constructor <;> intro hd <;> simp [save_report, hw, hd]
  · intro r hc hp
    have hw : prepare_report_data iso v =
        some (.dict [("metadata", .dict [("timestamp", .str iso),
          ("report_version", .str "1.0")]), ("data", r)]) := by
      simp [prepare_report_data, hc]
    have hprim : isPrimitiveOnly
        (.dict [("metadata", .dict [("timestamp", .str iso),
          ("report_version", .str "1.0")]), ("data", r)]) = true := by
      simp [isPrimitiveOnly, isPrimitiveOnlyKvs, hp]
    have hdump := dumpPrim _ hprim
    simp [save_report, hw, hdump]

/-- C8 witness: the three clauses at concrete inputs — an invalid-UTF-8
byte report (no file), and a primitive dict report (complete file, path
returned). -/
theorem c8_sink_streaming_witness :
    (convert_to_serializable (.dict [("a", .int 1)]) = Option.none →
      save_report "logs" "t0" "i0" (.dict [("a", .int 1)]) "status" =
        ⟨Option.none, Option.none⟩) ∧
    (∀ w, prepare_report_data "i0" (.dict [("a", .int 1)]) = some w →
      ((jsonDump w).2 = true →
        save_report "logs" "t0" "i0" (.dict [("a", .int 1)]) "status" =
          ⟨some (jsonDump w).1, some ("logs" ++ "/" ++ "status" ++ "_" ++ "t0" ++ ".json")⟩) ∧
      ((jsonDump w).2 = false →
        save_report "logs" "t0" "i0" (.dict [("a", .int 1)]) "status" =
          ⟨some (jsonDump w).1, Option.none⟩)) ∧
    (∀ r, convert_to_serializable (.dict [("a", .int 1)]) = some r →
      isPrimitiveOnly r = true →
      (save_report "logs" "t0" "i0" (.dict [("a", .int 1)]) "status").ret =
        some ("logs" ++ "/" ++ "status" ++ "_" ++ "t0" ++ ".json")) :=
  c8_sink_streaming "logs" "t0" "i0" "status" (.dict [("a", .int 1)])

/-- C8 counterexample: a report whose converted form still contains a
datetime (through an object's `__dict__`) makes `save_report` fail — the
path is not returned — while a file HAS been created and holds the partial
prefix written before the failure, contradicting "no partial file is left".
-/
theorem c8_counterexample :
    (save_report "logs" "20240101_000000" "2024-01-01T00:00:00"
        (.dict [("x", .obj [("t", .datetime "2024-01-01T00:00:00")])]) "status").ret
      = Option.none ∧
    ((save_report "logs" "20240101_000000" "2024-01-01T00:00:00"
        (.dict [("x", .obj [("t", .datetime "2024-01-01T00:00:00")])]) "status").fileContent).isSome
      = true := by
  constructor <;>
    simp [save_report, prepare_report_data, convert_to_serializable, convertKvs,
      jsonDump, jsonDumpKvs, jsonDumpElems]

/-! ## C9 — safe_int defaults, no unavailable sentinel -/

/-- C9 (amended): `safe_int` never raises — a `None` input or an
unparseable string resolves to the CALLER-SUPPLIED DEFAULT (0 unless
overridden), while a parseable input is converted; the result carries no
"unavailable" marker, so a defaulted failure is indistinguishable from a
genuinely-zero counter. -/
theorem c9_safe_int_defaults (s : String) (d n : Int)
    (hfail : pyIntOfString s = Option.none) :
    (safe_int (.str s) d = d) ∧
    (safe_int .none d = d) ∧
    (safe_int (.int n) d = n) := by
  refine ⟨?_, rfl, rfl⟩
  simp [safe_int, hfail]

/-- C9 witness: the defaulting behaviour at `"abc"` with default 7. -/
theorem c9_safe_int_defaults_witness :
    (safe_int (.str "abc") 7 = 7) ∧
    (safe_int .none 7 = 7) ∧
    (safe_int (.int 5) 7 = 5) :=
  c9_safe_int_defaults "abc" 7 5 (by decide)

/-- C9 counterexample: a malformed string IS silently replaced by zero —
`safe_int("abc", default=0)` returns 0, equal to the conversion of a
genuine "0", so no sentinel distinct from zero exists. -/
theorem c9_counterexample :
    safe_int (.str "abc") 0 = 0 ∧ safe_int (.str "0") 0 = 0 ∧
    safe_int (.str "abc") 0 = safe_int (.str "0") 0 := by
  refine ⟨by decide, by decide, by decide⟩

/-! ## C10 — advisory commands repaired field-by-field -/

/-- `processCommandList` distributes over appends, advancing the
generator index by the length of the first batch segment. -/
theorem processCommandList_append (g : Nat → String) (l1 l2 : List JVal) (i : Nat) :
    processCommandList g (l1 ++ l2) i =
      processCommandList g l1 i ++ processCommandList g l2 (i + l1.length) := by
  induction l1 generalizing i with
  | nil => simp [processCommandList]
  | cons c rest ih =>
    cases c <;>
      simp [processCommandList, ih, Nat.add_assoc, Nat.add_comm, Nat.add_left_comm]

/-- C10: a command object missing `priority` and `rationale` is still
included, repaired to priority "medium" and the non-empty default
rationale, with `id`, `action`, `target_service` and `parameters` likewise
defaulted when missing; the surrounding batch elements are processed
unchanged — one malformed command discards nothing. -/
theorem c10_commands_repaired_not_dropped (genId : Nat → String)
    (fields : List (String × JVal)) (pre post : List JVal)
    (hp : jlookup "priority" fields = Option.none)
    (hr : jlookup "rationale" fields = Option.none) :
    (process_ai_response genId
        (some (.obj [("commands", .arr (pre ++ .obj fields :: post))])) =
      processCommandList genId pre 0 ++
        repairCmd genId pre.length fields ::
          processCommandList genId post (pre.length + 1)) ∧
    ((repairCmd genId pre.length fields).priority = .str "medium") ∧
    ((repairCmd genId pre.length fields).rationale = .str "No rationale provided") ∧
    ("No rationale provided" ≠ "") ∧
    (jlookup "id" fields = Option.none →
      (repairCmd genId pre.length fields).id = .str (genId pre.length)) ∧
    (jlookup "action" fields = Option.none →
      (repairCmd genId pre.length fields).action = .str "unknown_action") ∧
    (jlookup "target_service" fields = Option.none →
      (repairCmd genId pre.length fields).target_service = .str "mysql") ∧
    (jlookup "parameters" fields = Option.none →
      (repairCmd genId pre.length fields).parameters = .obj []) := by
  refine ⟨?_, ?_, ?_, by decide, ?_, ?_, ?_, ?_⟩
  · simp [process_ai_response, jlookup, processCommandList_append, processCommandList]
  · simp [repairCmd, hp]
  · simp [repairCmd, hr]
  · intro h; simp [repairCmd, h]
  · intro h; simp [repairCmd, h]
  · intro h; simp [repairCmd, h]
  · intro h; simp [repairCmd, h]

/-- C10 witness: a batch with a valid command before and after the
malformed element, whose only field is `action`. -/
theorem c10_commands_repaired_not_dropped_witness :
    (process_ai_response (fun n => toString n)
        (some (.obj [("commands", .arr
          ([.obj [("priority", .str "high")], .str "junk"] ++
            .obj [("action", .str "optimize_table")] ::
              [.obj [("target_service", .str "mysql")]]))])) =
      processCommandList (fun n => toString n)
          [.obj [("priority", .str "high")], .str "junk"] 0 ++
        repairCmd (fun n => toString n)
            (([.obj [("priority", .str "high")], .str "junk"] : List JVal)).length
            [("action", .str "optimize_table")] ::
          processCommandList (fun n => toString n)
            [.obj [("target_service", .str "mysql")]]
            ((([.obj [("priority", .str "high")], .str "junk"] : List JVal)).length + 1)) ∧
    ((repairCmd (fun n => toString n)
        (([.obj [("priority", .str "high")], .str "junk"] : List JVal)).length
        [("action", .str "optimize_table")]).priority = .str "medium") ∧
    ((repairCmd (fun n => toString n)
        (([.obj [("priority", .str "high")], .str "junk"] : List JVal)).length
        [("action", .str "optimize_table")]).rationale = .str "No rationale provided") ∧
    ("No rationale provided" ≠ "") ∧
    (jlookup "id" [("action", .str "optimize_table")] = Option.none →
      (repairCmd (fun n => toString n)
          (([.obj [("priority", .str "high")], .str "junk"] : List JVal)).length
          [("action", .str "optimize_table")]).id =
        .str (toString (([.obj [("priority", .str "high")], .str "junk"] : List JVal)).length)) ∧
    (jlookup "action" [("action", .str "optimize_table")] = Option.none →
      (repairCmd (fun n => toString n)
          (([.obj [("priority", .str "high")], .str "junk"] : List JVal)).length
          [("action", .str "optimize_table")]).action = .str "unknown_action") ∧
    (jlookup "target_service" [("action", .str "optimize_table")] = Option.none →
      (repairCmd (fun n => toString n)
          (([.obj [("priority", .str "high")], .str "junk"] : List JVal)).length
          [("action", .str "optimize_table")]).target_service = .str "mysql") ∧
    (jlookup "parameters" [("action", .str "optimize_table")] = Option.none →
      (repairCmd (fun n => toString n)
          (([.obj [("priority", .str "high")], .str "junk"] : List JVal)).length
          [("action", .str "optimize_table")]).parameters = .obj []) :=
  c10_commands_repaired_not_dropped (fun n => toString n)
    [("action", .str "optimize_table")]
    [.obj [("priority", .str "high")], .str "junk"]
    [.obj [("target_service", .str "mysql")]]
    rfl rfl
